import Mathlib

/-!
Verification of the fund create/edit form pages.

Sources embedded:
* the create page (NewFundPage): its validate, handleChange and handleSubmit;
* the edit page (EditFundPage, frontend/app/funds/edit/[id]/page.tsx):
  its validate (with fallback merge), handleChange and handleSubmit.

JavaScript strings are Lean Strings; the regular expression ^\d{4}$ is the
predicate fourDigits; String.prototype.trim is jsTrim (the common whitespace
set); parseInt is parseIntJS, returning none for NaN.  The remote fund record
of the edit page is modelled as present (the form is only rendered after the
fetch has succeeded), with the source guard for a falsy vintage_year kept.
-/

/-- Whitespace characters removed by the JavaScript trim used in the pages. -/
def isJSWhitespace (c : Char) : Bool :=
  c == ' ' || c == '\t' || c == '\n' || c == '\r' || c == '\x0b' || c == '\x0c'

/-- Digit test of the regular expression class \d, i.e. exactly the characters 0-9. -/
def jsIsDigit (c : Char) : Bool :=
  48 ≤ c.toNat && c.toNat ≤ 57

/-- Drop leading and trailing whitespace from a character list. -/
def jsTrimList (l : List Char) : List Char :=
  ((l.dropWhile isJSWhitespace).reverse.dropWhile isJSWhitespace).reverse

/-- Model of String.prototype.trim as called by both pages. -/
def jsTrim (s : String) : String :=
  ⟨jsTrimList s.data⟩

/-- Test of the regular expression ^\d{4}$ used by both validate functions. -/
def fourDigits (s : String) : Bool :=
  s.data.length == 4 && s.data.all jsIsDigit

/-- Numeric value of the digit character c. -/
def digitVal (c : Char) : Nat :=
  c.toNat - 48

/-- Decimal value of a digit-character list, most significant first. -/
def natOfDigits (l : List Char) : Nat :=
  l.foldl (fun a c => a * 10 + digitVal c) 0

/-- Sign-and-digit phase of parseInt, after leading whitespace is gone. -/
def parseIntCore (l : List Char) : Option Int :=
  match l with
  | [] => none
  | c :: rest =>
    if c = '-' then
      let ds := rest.takeWhile jsIsDigit
      if ds = [] then none else some (-(natOfDigits ds : Int))
    else if c = '+' then
      let ds := rest.takeWhile jsIsDigit
      if ds = [] then none else some ((natOfDigits ds : Int))
    else
      let ds := (c :: rest).takeWhile jsIsDigit
      if ds = [] then none else some ((natOfDigits ds : Int))

/-- Model of JavaScript parseInt with radix 10: skip leading whitespace, read an
optional sign and then the longest digit run; none models NaN. -/
def parseIntJS (s : String) : Option Int :=
  parseIntCore (s.data.dropWhile isJSWhitespace)

/-- The JavaScript comparison parseInt(s) < 1900 of the edit validate;
NaN < 1900 evaluates to false. -/
def parseIntLt1900 (s : String) : Bool :=
  match parseIntJS s with
  | some n => decide (n < 1900)
  | none => false

/-- Local form state: useState of both pages, all fields strings. -/
structure FormState where
  name : String
  gp_name : String
  fund_type : String
  vintage_year : String
deriving Repr, DecidableEq

/-- Remote fund record fetched by the edit page (wire contract: vintage_year is
an integer). -/
structure RemoteFund where
  name : String
  gp_name : String
  fund_type : String
  vintage_year : Int
deriving Repr, DecidableEq

/-- Error state: one optional message per field; none means the field is valid. -/
structure ErrorState where
  name : Option String
  gp_name : Option String
  fund_type : Option String
  vintage_year : Option String
deriving Repr, DecidableEq

/-- Object.keys(temp).length === 0 of both validate functions. -/
def ErrorState.isEmpty (e : ErrorState) : Bool :=
  e.name.isNone && e.gp_name.isNone && e.fund_type.isNone && e.vintage_year.isNone

/-- validate of the create page: required checks on trimmed values, the 4-digit
regular expression applied to the raw vintage_year, no lower bound. -/
def createValidate (form : FormState) : ErrorState where
  name := if jsTrim form.name = "" then some "Fund Name is required." else none
  gp_name := if jsTrim form.gp_name = "" then some "GP Name is required." else none
  fund_type := if jsTrim form.fund_type = "" then some "Fund Type is required." else none
  vintage_year :=
    if jsTrim form.vintage_year = "" then some "Vintage Year is required."
    else if !fourDigits form.vintage_year then some "Vintage Year must be a 4-digit year."
    else none

/-- The final object of the edit validate: trimmed local value if non-empty,
else the trimmed remote value; for vintage_year, String(fund.vintage_year || "")
maps a zero remote year to the empty string. -/
def editValidateMerged (form : FormState) (fund : RemoteFund) : FormState where
  name := if jsTrim form.name = "" then jsTrim fund.name else jsTrim form.name
  gp_name := if jsTrim form.gp_name = "" then jsTrim fund.gp_name else jsTrim form.gp_name
  fund_type := if jsTrim form.fund_type = "" then jsTrim fund.fund_type else jsTrim form.fund_type
  vintage_year :=
    if jsTrim form.vintage_year = "" then
      if fund.vintage_year = 0 then "" else toString fund.vintage_year
    else jsTrim form.vintage_year

/-- validate of the edit page: required checks, the 4-digit regular expression
and the parseInt lower bound, all on the merged final values. -/
def editValidate (form : FormState) (fund : RemoteFund) : ErrorState where
  name :=
    if (editValidateMerged form fund).name = "" then some "Fund Name is required." else none
  gp_name :=
    if (editValidateMerged form fund).gp_name = "" then some "GP Name is required." else none
  fund_type :=
    if (editValidateMerged form fund).fund_type = "" then some "Fund Type is required." else none
  vintage_year :=
    if (editValidateMerged form fund).vintage_year = "" then
      some "Vintage Year is required."
    else if !fourDigits (editValidateMerged form fund).vintage_year then
      some "Vintage Year must be a 4-digit year."
    else if parseIntLt1900 (editValidateMerged form fund).vintage_year then
      some "Vintage Year must be greater than 1900."
    else none

/-- The final object of the edit handleSubmit: trimmed local value if non-empty,
else the raw remote value; for vintage_year the string handed to parseInt,
String(fund.vintage_year) with no falsy guard. -/
def editSubmitMerged (form : FormState) (fund : RemoteFund) : FormState where
  name := if jsTrim form.name = "" then fund.name else jsTrim form.name
  gp_name := if jsTrim form.gp_name = "" then fund.gp_name else jsTrim form.gp_name
  fund_type := if jsTrim form.fund_type = "" then fund.fund_type else jsTrim form.fund_type
  vintage_year :=
    if jsTrim form.vintage_year = "" then toString fund.vintage_year
    else jsTrim form.vintage_year

/-- Payload sent to fundApi.create or fundApi.update; a none vintage_year
models NaN from parseInt. -/
structure Payload where
  name : String
  gp_name : String
  fund_type : String
  vintage_year : Option Int
deriving Repr, DecidableEq

/-- Outcome of the awaited API call: the promise resolves or rejects. -/
inductive ApiOutcome where
  | success
  | failure
deriving Repr, DecidableEq

/-- Observable effects of one handleSubmit run. -/
structure SubmitResult where
  apiCalls : List Payload
  enteredSubmitting : Bool
  finalLoading : Bool
  navigated : Bool
  alerted : Bool
  form : FormState
  errors : ErrorState
deriving Repr, DecidableEq

/-- handleSubmit of the create page: abort before setLoading when validate
fails; otherwise one create call with the raw form values, navigation on
success, console error and alert on rejection, setLoading(false) in finally. -/
def createHandleSubmit (form : FormState) (o : ApiOutcome) : SubmitResult :=
  if (createValidate form).isEmpty = false then
    { apiCalls := [], enteredSubmitting := false, finalLoading := false
      navigated := false, alerted := false, form := form, errors := createValidate form }
  else
    match o with
    | .success =>
      { apiCalls := [{ name := form.name, gp_name := form.gp_name
                       fund_type := form.fund_type
                       vintage_year := parseIntJS form.vintage_year }]
        enteredSubmitting := true, finalLoading := false
        navigated := true, alerted := false, form := form, errors := createValidate form }
    | .failure =>
      { apiCalls := [{ name := form.name, gp_name := form.gp_name
                       fund_type := form.fund_type
                       vintage_year := parseIntJS form.vintage_year }]
        enteredSubmitting := true, finalLoading := false
        navigated := false, alerted := true, form := form, errors := createValidate form }

/-- handleSubmit of the edit page: abort before setLoading when validate fails;
otherwise one update call with the submit-side merge, navigation on success,
alert on rejection, setLoading(false) in finally. -/
def editHandleSubmit (form : FormState) (fund : RemoteFund) (o : ApiOutcome) : SubmitResult :=
  if (editValidate form fund).isEmpty = false then
    { apiCalls := [], enteredSubmitting := false, finalLoading := false
      navigated := false, alerted := false, form := form, errors := editValidate form fund }
  else
    match o with
    | .success =>
      { apiCalls := [{ name := (editSubmitMerged form fund).name
                       gp_name := (editSubmitMerged form fund).gp_name
                       fund_type := (editSubmitMerged form fund).fund_type
                       vintage_year := parseIntJS (editSubmitMerged form fund).vintage_year }]
        enteredSubmitting := true, finalLoading := false
        navigated := true, alerted := false, form := form, errors := editValidate form fund }
    | .failure =>
      { apiCalls := [{ name := (editSubmitMerged form fund).name
                       gp_name := (editSubmitMerged form fund).gp_name
                       fund_type := (editSubmitMerged form fund).fund_type
                       vintage_year := parseIntJS (editSubmitMerged form fund).vintage_year }]
        enteredSubmitting := true, finalLoading := false
        navigated := false, alerted := true, form := form, errors := editValidate form fund }

/-- The four field names of the form, the possible e.target.name values. -/
inductive FieldName where
  | name
  | gp_name
  | fund_type
  | vintage_year
deriving Repr, DecidableEq

/-- Read one field of the form state. -/
def FormState.getField (f : FormState) : FieldName → String
  | .name => f.name
  | .gp_name => f.gp_name
  | .fund_type => f.fund_type
  | .vintage_year => f.vintage_year

/-- The spread update of handleChange: setForm with one field replaced. -/
def FormState.setField (f : FormState) : FieldName → String → FormState
  | .name, v => { f with name := v }
  | .gp_name, v => { f with gp_name := v }
  | .fund_type, v => { f with fund_type := v }
  | .vintage_year, v => { f with vintage_year := v }

/-- The rendered component state the handlers act on. -/
structure ComponentState where
  form : FormState
  errors : ErrorState
  loading : Bool
deriving Repr, DecidableEq

/-- handleChange of both pages: replace one form field with the raw input
value; errors and loading are untouched. -/
def handleChange (st : ComponentState) (fld : FieldName) (v : String) : ComponentState :=
  { st with form := st.form.setField fld v }

/-! ### Arithmetic facts about the character-level primitives -/

theorem jsIsDigit_bounds (c : Char) (h : jsIsDigit c = true) :
    48 ≤ c.toNat ∧ c.toNat ≤ 57 := by
  simpa [jsIsDigit, Bool.and_eq_true, decide_eq_true_iff] using h

theorem toNat_lt_of_isJSWhitespace (c : Char) (h : isJSWhitespace c = true) :
    c.toNat < 48 := by
  simp only [isJSWhitespace, Bool.or_eq_true, beq_iff_eq] at h
  rcases h with ((((rfl | rfl) | rfl) | rfl) | rfl) | rfl <;> decide

theorem not_ws_of_jsIsDigit (c : Char) (h : jsIsDigit c = true) :
    isJSWhitespace c = false := by
  cases hw : isJSWhitespace c with
  | false => rfl
  | true =>
    have h1 := (jsIsDigit_bounds c h).1
    have h2 := toNat_lt_of_isJSWhitespace c hw
    omega

theorem dropWhile_ws_of_all_digits (l : List Char) (h : l.all jsIsDigit = true) :
    l.dropWhile isJSWhitespace = l := by
  cases l with
  | nil => rfl
  | cons a t =>
    have ha : jsIsDigit a = true := by
      simp only [List.all_cons, Bool.and_eq_true] at h
      exact h.1
    rw [List.dropWhile_cons_of_neg]
    simp [not_ws_of_jsIsDigit a ha]

theorem takeWhile_of_all_digits (l : List Char) (h : l.all jsIsDigit = true) :
    l.takeWhile jsIsDigit = l := by
  induction l with
  | nil => rfl
  | cons a t ih =>
    simp only [List.all_cons, Bool.and_eq_true] at h
    rw [List.takeWhile_cons_of_pos h.1, ih h.2]

theorem jsTrimList_of_all_digits (l : List Char) (h : l.all jsIsDigit = true) :
    jsTrimList l = l := by
  have hrev : l.reverse.all jsIsDigit = true := by
    simp only [List.all_eq_true, List.mem_reverse] at h ⊢
    exact h
  unfold jsTrimList
  rw [dropWhile_ws_of_all_digits l h, dropWhile_ws_of_all_digits l.reverse hrev,
    List.reverse_reverse]

theorem jsTrim_of_all_digits (s : String) (h : s.data.all jsIsDigit = true) :
    jsTrim s = s := by
  cases s with
  | mk l => simp [jsTrim, jsTrimList_of_all_digits l h]

theorem fourDigits_spec (s : String) (h : fourDigits s = true) :
    s.data.length = 4 ∧ s.data.all jsIsDigit = true := by
  simpa [fourDigits, Bool.and_eq_true] using h

theorem fourDigits_ne_empty (s : String) (h : fourDigits s = true) : s ≠ "" := by
  rintro rfl
  exact absurd h (by decide)

theorem jsTrim_of_fourDigits (s : String) (h : fourDigits s = true) : jsTrim s = s :=
  jsTrim_of_all_digits s (fourDigits_spec s h).2

theorem digitVal_le_nine (c : Char) (h : jsIsDigit c = true) : digitVal c ≤ 9 := by
  have := jsIsDigit_bounds c h
  unfold digitVal
  omega

theorem natOfDigits_le_9999 (l : List Char) (hlen : l.length = 4)
    (hall : l.all jsIsDigit = true) : natOfDigits l ≤ 9999 := by
  rcases l with _ | ⟨a, _ | ⟨b, _ | ⟨c, _ | ⟨d, _ | t⟩⟩⟩⟩ <;> simp at hlen
  simp only [List.all_cons, Bool.and_eq_true] at hall
  obtain ⟨ha, hb, hc, hd, -⟩ := hall
  have va := digitVal_le_nine a ha
  have vb := digitVal_le_nine b hb
  have vc := digitVal_le_nine c hc
  have vd := digitVal_le_nine d hd
  simp only [natOfDigits, List.foldl]
  omega

theorem parseIntCore_of_all_digits (c : Char) (rest : List Char)
    (h : (c :: rest).all jsIsDigit = true) :
    parseIntCore (c :: rest) = some ((natOfDigits (c :: rest) : Nat) : Int) := by
  have hc : jsIsDigit c = true := by
    simp only [List.all_cons, Bool.and_eq_true] at h
    exact h.1
  have h48 := (jsIsDigit_bounds c hc).1
  have hcm : ¬(c = '-') := by
    rintro rfl
    exact absurd h48 (by decide)
  have hcp : ¬(c = '+') := by
    rintro rfl
    exact absurd h48 (by decide)
  simp only [parseIntCore, if_neg hcm, if_neg hcp, takeWhile_of_all_digits _ h,
    List.cons_ne_nil]
  simp

theorem parseIntJS_of_fourDigits (s : String) (h : fourDigits s = true) :
    parseIntJS s = some ((natOfDigits s.data : Nat) : Int) := by
  obtain ⟨hlen, hall⟩ := fourDigits_spec s h
  rcases hd : s.data with _ | ⟨c, rest⟩
  · rw [hd] at hlen
    simp at hlen
  · rw [hd] at hall
    unfold parseIntJS
    rw [hd, dropWhile_ws_of_all_digits _ hall, parseIntCore_of_all_digits c rest hall, ← hd]

theorem parseIntJS_fourDigits_bounds (s : String) (h : fourDigits s = true) :
    ∃ n : Int, parseIntJS s = some n ∧ 0 ≤ n ∧ n ≤ 9999 := by
  obtain ⟨hlen, hall⟩ := fourDigits_spec s h
  refine ⟨(natOfDigits s.data : Nat), parseIntJS_of_fourDigits s h, by positivity, ?_⟩
  exact_mod_cast natOfDigits_le_9999 s.data hlen hall

theorem parseIntLt1900_of_fourDigits (s : String) (h : fourDigits s = true) :
    parseIntLt1900 s = decide (natOfDigits s.data < 1900) := by
  unfold parseIntLt1900
  rw [parseIntJS_of_fourDigits s h]
  simp

/-! ### Per-field characterisation of the two validate functions -/

theorem ErrorState.isEmpty_iff (e : ErrorState) :
    e.isEmpty = true ↔
      (e.name = none ∧ e.gp_name = none ∧ e.fund_type = none ∧ e.vintage_year = none) := by
  cases e
  simp [ErrorState.isEmpty, Bool.and_eq_true, Option.isNone_iff_eq_none, and_assoc]

theorem createValidate_name_none_iff (form : FormState) :
    (createValidate form).name = none ↔ jsTrim form.name ≠ "" := by
  simp only [createValidate]
  split_ifs with h <;> simp_all

theorem createValidate_gp_none_iff (form : FormState) :
    (createValidate form).gp_name = none ↔ jsTrim form.gp_name ≠ "" := by
  simp only [createValidate]
  split_ifs with h <;> simp_all

theorem createValidate_type_none_iff (form : FormState) :
    (createValidate form).fund_type = none ↔ jsTrim form.fund_type ≠ "" := by
  simp only [createValidate]
  split_ifs with h <;> simp_all

theorem createValidate_vintage_none_iff (form : FormState) :
    (createValidate form).vintage_year = none ↔
      (jsTrim form.vintage_year ≠ "" ∧ fourDigits form.vintage_year = true) := by
  simp only [createValidate]
  split_ifs with h1 h2 <;> simp_all

theorem createValidate_isEmpty_iff (form : FormState) :
    (createValidate form).isEmpty = true ↔
      (jsTrim form.name ≠ "" ∧ jsTrim form.gp_name ≠ "" ∧ jsTrim form.fund_type ≠ "" ∧
        jsTrim form.vintage_year ≠ "" ∧ fourDigits form.vintage_year = true) := by
  rw [ErrorState.isEmpty_iff, createValidate_name_none_iff, createValidate_gp_none_iff,
    createValidate_type_none_iff, createValidate_vintage_none_iff]

theorem editValidate_name_none_iff (form : FormState) (fund : RemoteFund) :
    (editValidate form fund).name = none ↔ (editValidateMerged form fund).name ≠ "" := by
  simp only [editValidate]
  split_ifs with h <;> simp_all

theorem editValidate_gp_none_iff (form : FormState) (fund : RemoteFund) :
    (editValidate form fund).gp_name = none ↔ (editValidateMerged form fund).gp_name ≠ "" := by
  simp only [editValidate]
  split_ifs with h <;> simp_all

theorem editValidate_type_none_iff (form : FormState) (fund : RemoteFund) :
    (editValidate form fund).fund_type = none ↔
      (editValidateMerged form fund).fund_type ≠ "" := by
  simp only [editValidate]
  split_ifs with h <;> simp_all

theorem editValidate_vintage_none_iff (form : FormState) (fund : RemoteFund) :
    (editValidate form fund).vintage_year = none ↔
      ((editValidateMerged form fund).vintage_year ≠ "" ∧
        fourDigits (editValidateMerged form fund).vintage_year = true ∧
        parseIntLt1900 (editValidateMerged form fund).vintage_year = false) := by
  simp only [editValidate]
  split_ifs with h1 h2 h3 <;> simp_all

theorem editValidate_isEmpty_iff (form : FormState) (fund : RemoteFund) :
    (editValidate form fund).isEmpty = true ↔
      ((editValidateMerged form fund).name ≠ "" ∧
        (editValidateMerged form fund).gp_name ≠ "" ∧
        (editValidateMerged form fund).fund_type ≠ "" ∧
        (editValidateMerged form fund).vintage_year ≠ "" ∧
        fourDigits (editValidateMerged form fund).vintage_year = true ∧
        parseIntLt1900 (editValidateMerged form fund).vintage_year = false) := by
  rw [ErrorState.isEmpty_iff, editValidate_name_none_iff, editValidate_gp_none_iff,
    editValidate_type_none_iff, editValidate_vintage_none_iff]

/-! ### Claim theorems -/

/-- Claim C1: in both modes, when validate returns a non-empty ErrorState,
handleSubmit returns before setLoading(true): no API call is made and the
submitting lifecycle state is never entered. -/
theorem c1_validation_failure_aborts_submit (form : FormState) (fund : RemoteFund)
    (o o2 : ApiOutcome) :
    ((createValidate form).isEmpty = false →
      (createHandleSubmit form o).apiCalls = [] ∧
      (createHandleSubmit form o).enteredSubmitting = false) ∧
    ((editValidate form fund).isEmpty = false →
      (editHandleSubmit form fund o2).apiCalls = [] ∧
      (editHandleSubmit form fund o2).enteredSubmitting = false) := by
  constructor
  · intro h
    simp [createHandleSubmit, h]
  · intro h
    simp [editHandleSubmit, h]

/-- Witness for C1 at the all-empty form, which fails validation in both modes. -/
theorem c1_validation_failure_aborts_submit_witness :
    (createHandleSubmit ⟨"", "", "", ""⟩ .success).apiCalls = [] ∧
    (createHandleSubmit ⟨"", "", "", ""⟩ .success).enteredSubmitting = false ∧
    (editHandleSubmit ⟨"", "", "", ""⟩ ⟨"", "", "", 0⟩ .failure).apiCalls = [] ∧
    (editHandleSubmit ⟨"", "", "", ""⟩ ⟨"", "", "", 0⟩ .failure).enteredSubmitting = false := by
  obtain ⟨h1, h2⟩ :=
    c1_validation_failure_aborts_submit ⟨"", "", "", ""⟩ ⟨"", "", "", 0⟩ .success .failure
  exact ⟨(h1 (by decide)).1, (h1 (by decide)).2, (h2 (by decide)).1, (h2 (by decide)).2⟩

/-- Claim C5: in both modes validate reports exactly the failing fields: each
field of the returned ErrorState is none if and only if that field passes its
rule, and the ErrorState is empty if and only if every rule passes.  Both
validate functions are pure functions of the form (and, in edit mode, the
fund), so the previously stored ErrorState has no influence by construction. -/
theorem c5_errorstate_exactly_failing_fields (form : FormState) (fund : RemoteFund) :
    ((createValidate form).name = none ↔ jsTrim form.name ≠ "") ∧
    ((createValidate form).gp_name = none ↔ jsTrim form.gp_name ≠ "") ∧
    ((createValidate form).fund_type = none ↔ jsTrim form.fund_type ≠ "") ∧
    ((createValidate form).vintage_year = none ↔
      (jsTrim form.vintage_year ≠ "" ∧ fourDigits form.vintage_year = true)) ∧
    ((createValidate form).isEmpty = true ↔
      (jsTrim form.name ≠ "" ∧ jsTrim form.gp_name ≠ "" ∧ jsTrim form.fund_type ≠ "" ∧
        jsTrim form.vintage_year ≠ "" ∧ fourDigits form.vintage_year = true)) ∧
    ((editValidate form fund).name = none ↔ (editValidateMerged form fund).name ≠ "") ∧
    ((editValidate form fund).gp_name = none ↔ (editValidateMerged form fund).gp_name ≠ "") ∧
    ((editValidate form fund).fund_type = none ↔
      (editValidateMerged form fund).fund_type ≠ "") ∧
    ((editValidate form fund).vintage_year = none ↔
      ((editValidateMerged form fund).vintage_year ≠ "" ∧
        fourDigits (editValidateMerged form fund).vintage_year = true ∧
        parseIntLt1900 (editValidateMerged form fund).vintage_year = false)) ∧
    ((editValidate form fund).isEmpty = true ↔
      ((editValidateMerged form fund).name ≠ "" ∧
        (editValidateMerged form fund).gp_name ≠ "" ∧
        (editValidateMerged form fund).fund_type ≠ "" ∧
        (editValidateMerged form fund).vintage_year ≠ "" ∧
        fourDigits (editValidateMerged form fund).vintage_year = true ∧
        parseIntLt1900 (editValidateMerged form fund).vintage_year = false)) :=
  ⟨createValidate_name_none_iff form, createValidate_gp_none_iff form,
    createValidate_type_none_iff form, createValidate_vintage_none_iff form,
    createValidate_isEmpty_iff form, editValidate_name_none_iff form fund,
    editValidate_gp_none_iff form fund, editValidate_type_none_iff form fund,
    editValidate_vintage_none_iff form fund, editValidate_isEmpty_iff form fund⟩

/-- Claim C6: a non-empty vintage_year that fails the 4-digit pattern after the
mode-specific merge always yields a vintage_year error, in create mode and in
edit mode alike. -/
theorem c6_nonmatching_vintage_rejected (form : FormState) (fund : RemoteFund) :
    (form.vintage_year ≠ "" → fourDigits form.vintage_year = false →
      (createValidate form).vintage_year ≠ none) ∧
    ((editValidateMerged form fund).vintage_year ≠ "" →
      fourDigits (editValidateMerged form fund).vintage_year = false →
      (editValidate form fund).vintage_year ≠ none) := by
  constructor
  · intro h1 h2
    simp only [createValidate]
    split_ifs with ha hb <;> simp_all
  · intro h1 h2
    simp only [editValidate]
    split_ifs with ha hb hc <;> simp_all

/-- Witness for C6 on the spec examples: "99" in create mode and "abcd" in
edit mode are rejected. -/
theorem c6_nonmatching_vintage_rejected_witness :
    (createValidate ⟨"A", "B", "C", "99"⟩).vintage_year ≠ none ∧
    (editValidate ⟨"A", "B", "C", "abcd"⟩ ⟨"X", "Y", "Z", 2000⟩).vintage_year ≠ none :=
  ⟨(c6_nonmatching_vintage_rejected ⟨"A", "B", "C", "99"⟩ ⟨"X", "Y", "Z", 2000⟩).1
      (by decide) (by decide),
    (c6_nonmatching_vintage_rejected ⟨"A", "B", "C", "abcd"⟩ ⟨"X", "Y", "Z", 2000⟩).2
      (by decide) (by decide)⟩

/-- Claim C7: the spec fallback example: remote record Acme/G1/VC/2020 with
local form only editing gp_name to G2 submits the payload Acme/G2/VC/2020. -/
theorem c7_edit_fallback_payload_example :
    (editHandleSubmit ⟨"", "G2", "", ""⟩ ⟨"Acme", "G1", "VC", 2020⟩ .success).apiCalls =
      [{ name := "Acme", gp_name := "G2", fund_type := "VC", vintage_year := some 2020 }] := by
  decide

/-- Claim C8: handleChange replaces exactly the named form field by the raw
value, leaves the three other fields unchanged, runs no validation, and leaves
the ErrorState and the loading flag untouched. -/
theorem c8_handleChange_updates_one_field (st : ComponentState) (fld g : FieldName)
    (v : String) :
    (handleChange st fld v).form.getField g =
      (if g = fld then v else st.form.getField g) ∧
    (handleChange st fld v).errors = st.errors ∧
    (handleChange st fld v).loading = st.loading := by
  refine ⟨?_, rfl, rfl⟩
  cases fld <;> cases g <;> simp [handleChange, FormState.setField, FormState.getField]

/-- Claim C2 counterexample: the form with name " Acme " passes create-mode
validation, but the single create call carries the raw, untrimmed name, not
the trimmed one the claim states. -/
theorem c2_trimmed_payload_counterexample :
    (createValidate ⟨" Acme ", "G", "VC", "2024"⟩).isEmpty = true ∧
    ((createHandleSubmit ⟨" Acme ", "G", "VC", "2024"⟩ .success).apiCalls.map Payload.name ≠
      [jsTrim " Acme "]) := by
  decide

/-- Claim C2 (amended): when create-mode validation passes, handleSubmit issues
exactly one create call whose name, gp_name and fund_type are the raw
(untrimmed) local values and whose vintage_year is the integer parse of the raw
local value; when that call rejects, the form state is unchanged, a failure
notification is shown and no navigation occurs. -/
theorem c2_create_submit_once_raw_payload (form : FormState)
    (h : (createValidate form).isEmpty = true) :
    (∀ o : ApiOutcome, (createHandleSubmit form o).apiCalls =
      [{ name := form.name, gp_name := form.gp_name, fund_type := form.fund_type,
         vintage_year := parseIntJS form.vintage_year }]) ∧
    (createHandleSubmit form .failure).form = form ∧
    (createHandleSubmit form .failure).alerted = true ∧
    (createHandleSubmit form .failure).navigated = false := by
  have h2 : ¬((createValidate form).isEmpty = false) := by simp [h]
  refine ⟨fun o => ?_, ?_, ?_, ?_⟩
  · cases o <;> simp [createHandleSubmit, h2]
  · simp [createHandleSubmit, h2]
  · simp [createHandleSubmit, h2]
  · simp [createHandleSubmit, h2]

/-- Witness for the amended C2 at a fully valid create form. -/
theorem c2_create_submit_once_raw_payload_witness :
    (createHandleSubmit ⟨"A", "B", "C", "2024"⟩ .success).apiCalls =
      [{ name := "A", gp_name := "B", fund_type := "C",
         vintage_year := parseIntJS "2024" }] ∧
    (createHandleSubmit ⟨"A", "B", "C", "2024"⟩ .failure).form = ⟨"A", "B", "C", "2024"⟩ := by
  obtain ⟨h1, h2, -, -⟩ := c2_create_submit_once_raw_payload ⟨"A", "B", "C", "2024"⟩ (by decide)
  exact ⟨h1 .success, h2⟩

/-- Claim C3 counterexample: with remote name " Acme " and an unedited local
name, the validation pass merges the trimmed fallback "Acme" while the
submission pass merges the raw fallback " Acme ", so the two merge functions
are not extensionally identical. -/
theorem c3_merge_mismatch_counterexample :
    editValidateMerged ⟨"", "B", "C", "2001"⟩ ⟨" Acme ", "G", "T", 2000⟩ ≠
      editSubmitMerged ⟨"", "B", "C", "2001"⟩ ⟨" Acme ", "G", "T", 2000⟩ := by
  decide

/-- Claim C3 (amended): the validation-pass merge and the submission-pass merge
agree on every field provided the remote string fields carry no surrounding
whitespace (each equals its own trim) and the remote vintage_year is nonzero;
in general they differ, because validation trims the remote fallback (and maps
a zero remote vintage_year to the empty string) while submission uses it raw. -/
theorem c3_merges_agree_on_trimmed_fund (form : FormState) (fund : RemoteFund)
    (h1 : jsTrim fund.name = fund.name) (h2 : jsTrim fund.gp_name = fund.gp_name)
    (h3 : jsTrim fund.fund_type = fund.fund_type) (h4 : fund.vintage_year ≠ 0) :
    editValidateMerged form fund = editSubmitMerged form fund := by
  simp only [editValidateMerged, editSubmitMerged, FormState.mk.injEq]
  refine ⟨?_, ?_, ?_, ?_⟩ <;> split_ifs <;> simp_all

/-- Witness for the amended C3 at a remote record with trimmed fields. -/
theorem c3_merges_agree_on_trimmed_fund_witness :
    editValidateMerged ⟨"", "G2", "x", "1999"⟩ ⟨"Acme", "G", "T", 2020⟩ =
      editSubmitMerged ⟨"", "G2", "x", "1999"⟩ ⟨"Acme", "G", "T", 2020⟩ :=
  c3_merges_agree_on_trimmed_fund ⟨"", "G2", "x", "1999"⟩ ⟨"Acme", "G", "T", 2020⟩
    (by decide) (by decide) (by decide) (by decide)

/-- Claim C4: in edit mode, when the merged vintage_year matches the 4-digit
pattern, the vintage_year error is present if and only if the parsed integer is
strictly below 1900; "1899" fails with the greater-than-1900 message, "1900"
passes, and create mode applies no lower bound to any 4-digit value. -/
theorem c4_vintage_lower_bound_edit_only (form : FormState) (fund : RemoteFund)
    (h : fourDigits (editValidateMerged form fund).vintage_year = true) :
    (∃ n : Int, parseIntJS (editValidateMerged form fund).vintage_year = some n ∧
      ((editValidate form fund).vintage_year =
          some "Vintage Year must be greater than 1900." ↔ n < 1900)) ∧
    (editValidate ⟨"A", "B", "C", "1899"⟩ fund).vintage_year =
      some "Vintage Year must be greater than 1900." ∧
    (editValidate ⟨"A", "B", "C", "1900"⟩ fund).vintage_year = none ∧
    (∀ g : FormState, fourDigits g.vintage_year = true →
      (createValidate g).vintage_year = none) := by
  refine ⟨?_, ?_, ?_, ?_⟩
  · refine ⟨((natOfDigits (editValidateMerged form fund).vintage_year.data : Nat) : Int),
      parseIntJS_of_fourDigits _ h, ?_⟩
    have hne : (editValidateMerged form fund).vintage_year ≠ "" := fourDigits_ne_empty _ h
    have hlt := parseIntLt1900_of_fourDigits _ h
    simp only [editValidate]
    rw [if_neg hne, if_neg (by simp [h]), hlt]
    by_cases hd : natOfDigits (editValidateMerged form fund).vintage_year.data < 1900
    · rw [if_pos (by simpa using hd)]
      exact iff_of_true rfl (by exact_mod_cast hd)
    · rw [if_neg (by simpa using hd)]
      exact iff_of_false (by simp) (by exact_mod_cast hd)
  · have hm : (editValidateMerged ⟨"A", "B", "C", "1899"⟩ fund).vintage_year = "1899" := by
      simp only [editValidateMerged]
      rw [if_neg (by decide)]
      decide
    simp only [editValidate, hm]
    decide
  · have hm : (editValidateMerged ⟨"A", "B", "C", "1900"⟩ fund).vintage_year = "1900" := by
      simp only [editValidateMerged]
      rw [if_neg (by decide)]
      decide
    simp only [editValidate, hm]
    decide
  · intro g hg
    have ht : jsTrim g.vintage_year = g.vintage_year := jsTrim_of_fourDigits _ hg
    have hne : g.vintage_year ≠ "" := fourDigits_ne_empty _ hg
    simp only [createValidate]
    rw [if_neg (by rw [ht]; exact hne), if_neg (by simp [hg])]

/-- Witness for C4 at a merged vintage_year of "2024". -/
theorem c4_vintage_lower_bound_edit_only_witness :
    ∃ n : Int,
      parseIntJS (editValidateMerged ⟨"A", "B", "C", "2024"⟩ ⟨"X", "Y", "Z", 2000⟩).vintage_year =
        some n ∧
      ((editValidate ⟨"A", "B", "C", "2024"⟩ ⟨"X", "Y", "Z", 2000⟩).vintage_year =
          some "Vintage Year must be greater than 1900." ↔ n < 1900) :=
  (c4_vintage_lower_bound_edit_only ⟨"A", "B", "C", "2024"⟩ ⟨"X", "Y", "Z", 2000⟩
    (by decide)).1

/-- Claim C9 counterexample: the local vintage_year " 1800" trims to a 4-digit
string and carries surrounding whitespace, and create-mode validate reports the
format error as the claim states; but edit-mode validate does not accept it: it
reports the lower-bound error after trimming, so the acceptance part of the
claim is false. -/
theorem c9_edit_accepts_counterexample :
    fourDigits (jsTrim " 1800") = true ∧
    (" 1800" : String) ≠ jsTrim " 1800" ∧
    (createValidate ⟨"A", "B", "C", " 1800"⟩).vintage_year =
      some "Vintage Year must be a 4-digit year." ∧
    (editValidate ⟨"A", "B", "C", " 1800"⟩ ⟨"X", "Y", "Z", 2000⟩).vintage_year ≠ none := by
  decide

/-- Claim C9 (amended): for a local vintage_year that carries surrounding
whitespace while its trimmed form matches the 4-digit pattern, create-mode
validate reports the format error because it tests the raw value, whereas
edit-mode validate trims before testing and reports no vintage_year error
provided the trimmed value also passes the lower-bound check. -/
theorem c9_raw_vs_trimmed_digit_test (form : FormState) (fund : RemoteFund)
    (hws : form.vintage_year ≠ jsTrim form.vintage_year)
    (h4 : fourDigits (jsTrim form.vintage_year) = true) :
    (createValidate form).vintage_year = some "Vintage Year must be a 4-digit year." ∧
    (parseIntLt1900 (jsTrim form.vintage_year) = false →
      (editValidate form fund).vintage_year = none) := by
  have hraw : fourDigits form.vintage_year = false := by
    cases hf : fourDigits form.vintage_year
    · rfl
    · exact absurd (jsTrim_of_fourDigits _ hf).symm hws
  have htne : jsTrim form.vintage_year ≠ "" := fourDigits_ne_empty _ h4
  constructor
  · simp only [createValidate]
    rw [if_neg htne, if_pos (by simp [hraw])]
  · intro hlt
    have hm : (editValidateMerged form fund).vintage_year = jsTrim form.vintage_year := by
      simp only [editValidateMerged]
      rw [if_neg htne]
    simp only [editValidate, hm]
    rw [if_neg htne, if_neg (by simp [h4]), if_neg (by simp [hlt])]

/-- Witness for the amended C9 at the local vintage_year " 2024". -/
theorem c9_raw_vs_trimmed_digit_test_witness :
    (createValidate ⟨"A", "B", "C", " 2024"⟩).vintage_year =
      some "Vintage Year must be a 4-digit year." ∧
    (editValidate ⟨"A", "B", "C", " 2024"⟩ ⟨"X", "Y", "Z", 2000⟩).vintage_year = none := by
  obtain ⟨h1, h2⟩ := c9_raw_vs_trimmed_digit_test ⟨"A", "B", "C", " 2024"⟩
    ⟨"X", "Y", "Z", 2000⟩ (by decide) (by decide)
  exact ⟨h1, h2 (by decide)⟩

/-- Claim C10: when validation passes, the string handed to parseInt while
building the payload matches the 4-digit pattern in both modes (in edit mode it
is the very string the validation pass checked), so the submitted vintage_year
is a defined integer between 0 and 9999, never NaN. -/
theorem c10_submitted_vintage_well_defined (form : FormState) (fund : RemoteFund) :
    ((createValidate form).isEmpty = true →
      fourDigits form.vintage_year = true ∧
      ∃ n : Int, parseIntJS form.vintage_year = some n ∧ 0 ≤ n ∧ n ≤ 9999) ∧
    ((editValidate form fund).isEmpty = true →
      (editSubmitMerged form fund).vintage_year = (editValidateMerged form fund).vintage_year ∧
      fourDigits (editSubmitMerged form fund).vintage_year = true ∧
      ∃ n : Int, parseIntJS (editSubmitMerged form fund).vintage_year = some n ∧
        0 ≤ n ∧ n ≤ 9999) := by
  constructor
  · intro h
    have hv := ((ErrorState.isEmpty_iff _).1 h).2.2.2
    rw [createValidate_vintage_none_iff] at hv
    exact ⟨hv.2, parseIntJS_fourDigits_bounds _ hv.2⟩
  · intro h
    have hv := ((ErrorState.isEmpty_iff _).1 h).2.2.2
    rw [editValidate_vintage_none_iff] at hv
    obtain ⟨hne, h4, hlt⟩ := hv
    have heq :
        (editSubmitMerged form fund).vintage_year =
          (editValidateMerged form fund).vintage_year := by
      simp only [editSubmitMerged, editValidateMerged]
      by_cases ht : jsTrim form.vintage_year = ""
      · rw [if_pos ht, if_pos ht]
        by_cases hz : fund.vintage_year = 0
        · exact absurd (by simp only [editValidateMerged]; rw [if_pos ht, if_pos hz]) hne
        · rw [if_neg hz]
      · rw [if_neg ht, if_neg ht]
    rw [heq]
    exact ⟨rfl, h4, parseIntJS_fourDigits_bounds _ h4⟩

/-- Witness for C10: a valid create form and a valid edit state with an
unedited vintage_year falling back to the remote year 2020. -/
theorem c10_submitted_vintage_well_defined_witness :
    (∃ n : Int,
      parseIntJS (FormState.vintage_year ⟨"A", "B", "C", "2024"⟩) = some n ∧
        0 ≤ n ∧ n ≤ 9999) ∧
    (editSubmitMerged ⟨"A", "B", "C", ""⟩ ⟨"X", "Y", "Z", 2020⟩).vintage_year =
      (editValidateMerged ⟨"A", "B", "C", ""⟩ ⟨"X", "Y", "Z", 2020⟩).vintage_year :=
  ⟨((c10_submitted_vintage_well_defined ⟨"A", "B", "C", "2024"⟩ ⟨"X", "Y", "Z", 2020⟩).1
      (by decide)).2,
    ((c10_submitted_vintage_well_defined ⟨"A", "B", "C", ""⟩ ⟨"X", "Y", "Z", 2020⟩).2
      (by decide)).1⟩
